import Mathlib

/-!
Shallow embedding of the servo-control core of the firmware in
`src/arduino/arduino_slave.ino` (the enhanced variant with PWM control,
exponential filtering, deadzone and static-lock detection).

Machine integers are modelled as `Nat`: every pulse value handled by the
program is a small positive number (500..2400), timestamps come from
`millis()` and are monotone, so overflow never matters.  `abs(a - b)` on
such values is `Nat.dist a b`.  Function-local `static` variables of the
C source (`lastLiftPWM`, `lastCheckedLiftPWM`, ...) are modelled as
explicit fields of the global state.
-/

namespace Robff

/-- Servo limits for the lift channel (from testing). -/
def LIFT_MIN : Nat := 1000
def LIFT_MAX : Nat := 1630
def LIFT_MID : Nat := 1550

/-- Servo limits for the tilt channel (from testing). -/
def TILT_MIN : Nat := 1515
def TILT_MAX : Nat := 1900
def TILT_MID : Nat := 1700

/-- Servo limits for the gripper channel (from testing). -/
def GRIPPER_MIN : Nat := 500
def GRIPPER_MAX : Nat := 2400
def GRIPPER_MID : Nat := 1440

/-- Preset position code `NONE = 0`. -/
def NONE : Nat := 0

/-- Anti-jitter parameters of the firmware. -/
def PWM_DEADZONE : Nat := 10
def PWM_FILTER_ALPHA : Nat := 3
def SERVO_UPDATE_MIN_INTERVAL : Nat := 20
def STATIC_THRESHOLD : Nat := 3
def STATIC_TIMEOUT : Nat := 300

/-- Per-channel servo state.  The C source keeps one copy of each field per
channel (`targetLiftPulse`, `filteredLiftPulse`, `lastLiftPulse`,
`lastLiftPWM`, `lastLiftChange`, `liftIsStatic`, and likewise for tilt and
gripper); the three per-channel code blocks are identical up to renaming,
so we factor them into one record and one set of functions. -/
structure Chan where
  target : Nat
  filtered : Nat
  lastPulse : Nat
  lastPWM : Nat
  lastChange : Nat
  isStatic : Bool
  deriving Repr, DecidableEq

/-- The servo-relevant command fields of the shared I2C `Data` buffer. -/
structure Buffer where
  servoPosition : Nat
  servoEnable : Bool
  liftPWM : Nat
  tiltPWM : Nat
  gripperPWM : Nat
  deriving Repr, DecidableEq

/-- Whole controller state: shared buffer, servo state variables and the
function-local `static` variables made explicit. -/
structure St where
  buf : Buffer
  servosAttached : Bool
  currentPosition : Nat
  lift : Chan
  tilt : Chan
  gripper : Chan
  lastCheckedLiftPWM : Nat
  lastCheckedTiltPWM : Nat
  lastCheckedGripperPWM : Nat
  lastCheckedPosition : Nat
  lastServoCommandTime : Nat
  currentLiftPulse : Nat
  currentTiltPulse : Nat
  currentGripperPulse : Nat
  deriving Repr, DecidableEq

/-- Initial state after `setup()`: globals take their initializers,
the buffer's command fields are zero-initialized and `setup()` sets
`servoPosition := NONE`, `servoEnable := false`. -/
def initSt : St where
  buf := { servoPosition := NONE, servoEnable := false,
           liftPWM := 0, tiltPWM := 0, gripperPWM := 0 }
  servosAttached := false
  currentPosition := NONE
  lift := { target := LIFT_MID, filtered := LIFT_MID, lastPulse := LIFT_MID,
            lastPWM := 0, lastChange := 0, isStatic := false }
  tilt := { target := TILT_MID, filtered := TILT_MID, lastPulse := TILT_MID,
            lastPWM := 0, lastChange := 0, isStatic := false }
  gripper := { target := GRIPPER_MIN, filtered := GRIPPER_MIN,
               lastPulse := GRIPPER_MIN, lastPWM := 0, lastChange := 0,
               isStatic := false }
  lastCheckedLiftPWM := 0
  lastCheckedTiltPWM := 0
  lastCheckedGripperPWM := 0
  lastCheckedPosition := NONE
  lastServoCommandTime := 0
  currentLiftPulse := LIFT_MID
  currentTiltPulse := TILT_MID
  currentGripperPulse := GRIPPER_MIN

/-- The host writes the command fields of the shared buffer
(`slave.updateBuffer()` making master writes visible). -/
def ingest (b : Buffer) (s : St) : St := { s with buf := b }

/-- One per-channel acceptance test of `handlePWMControl`: the raw command
`cmd` is accepted iff it differs from the last accepted value by more than
the deadzone and lies within the channel bounds; on acceptance it becomes
the target, the static flag is cleared and the change time recorded.
Returns the updated channel and whether the command was accepted. -/
def acceptPWM (lo hi cmd now : Nat) (c : Chan) : Chan × Bool :=
  if PWM_DEADZONE < Nat.dist cmd c.lastPWM ∧ lo ≤ cmd ∧ cmd ≤ hi then
    ({ c with target := cmd, lastPWM := cmd, lastChange := now,
              isStatic := false }, true)
  else
    (c, false)

/-- `handlePWMControl()`: run the acceptance test on all three channels;
if any command was accepted, clear the preset state (`currentPosition`
and the buffer's `servoPosition` both become `NONE`) and report `true`. -/
def handlePWMControl (now : Nat) (s : St) : St × Bool :=
  let lr := acceptPWM LIFT_MIN LIFT_MAX s.buf.liftPWM now s.lift
  let tr := acceptPWM TILT_MIN TILT_MAX s.buf.tiltPWM now s.tilt
  let gr := acceptPWM GRIPPER_MIN GRIPPER_MAX s.buf.gripperPWM now s.gripper
  let s' := { s with lift := lr.1, tilt := tr.1, gripper := gr.1 }
  if lr.2 || tr.2 || gr.2 then
    ({ s' with currentPosition := NONE,
               buf := { s'.buf with servoPosition := NONE } }, true)
  else
    (s', false)

/-- `handleServoEnable()`: edge-triggered attach/detach.  On disable the
preset state is reset to `NONE`; on enable the servos are only attached. -/
def handleServoEnable (s : St) : St :=
  if s.buf.servoEnable ∧ ¬s.servosAttached then
    { s with servosAttached := true }
  else if ¬s.buf.servoEnable ∧ s.servosAttached then
    { s with servosAttached := false, currentPosition := NONE }
  else
    s

/-- The `switch` of `moveToPosition()`: target values resolved per preset
code; codes without a `case` leave every target unchanged. -/
def presetTargets (position : Nat) (s : St) : St :=
  match position with
  | 1 => { s with lift := { s.lift with target := 1446 },
                  tilt := { s.tilt with target := 1791 } }
  | 2 => { s with lift := { s.lift with target := 1487 },
                  tilt := { s.tilt with target := 1789 } }
  | 3 => { s with lift := { s.lift with target := LIFT_MIN },
                  tilt := { s.tilt with target := TILT_MAX } }
  | 4 => { s with lift := { s.lift with target := 1536 },
                  tilt := { s.tilt with target := 1710 },
                  gripper := { s.gripper with target := GRIPPER_MIN } }
  | 5 => { s with lift := { s.lift with target := 1506 },
                  tilt := { s.tilt with target := TILT_MIN },
                  gripper := { s.gripper with target := GRIPPER_MIN } }
  | _ => s

/-- `moveToPosition()`: resolve the preset targets, then unconditionally
clear all static flags, record the change times and reset every filtered
value to the last value actually sent (for a smooth transition). -/
def moveToPosition (position now : Nat) (s : St) : St :=
  if ¬s.servosAttached then s
  else
    let s1 := presetTargets position s
    { s1 with
      lift := { s1.lift with isStatic := false, lastChange := now,
                             filtered := s1.lift.lastPulse }
      tilt := { s1.tilt with isStatic := false, lastChange := now,
                             filtered := s1.tilt.lastPulse }
      gripper := { s1.gripper with isStatic := false, lastChange := now,
                                   filtered := s1.gripper.lastPulse } }

/-- `syncPWMToBuffer()`: copy the `currentXPulse` variables into the
buffer's PWM fields for the host's slider display. -/
def syncPWMToBuffer (s : St) : St :=
  { s with buf := { s.buf with liftPWM := s.currentLiftPulse,
                               tiltPWM := s.currentTiltPulse,
                               gripperPWM := s.currentGripperPulse } }

/-- `handlePresetPositions()`: apply the buffered preset code when it
differs from the currently applied one and is not `NONE`. -/
def handlePresetPositions (now : Nat) (s : St) : St :=
  if s.buf.servoPosition ≠ s.currentPosition ∧ s.buf.servoPosition ≠ NONE then
    let s1 := moveToPosition s.buf.servoPosition now s
    let s2 := { s1 with currentPosition := s1.buf.servoPosition }
    syncPWMToBuffer s2
  else
    s

/-- One per-channel pass of `updateFilteredServoPositions()`: skip static
channels; otherwise advance the exponential moving average, lock to the
target when close enough for longer than the static timeout, and issue a
physical write (returned as `some value`) only when the filtered value
moved by more than the deadzone from the last value actually sent. -/
def filterChan (now : Nat) (c : Chan) : Chan × Option Nat :=
  if c.isStatic then (c, none)
  else
    let newFiltered := ((PWM_FILTER_ALPHA - 1) * c.filtered + c.target) /
      PWM_FILTER_ALPHA
    let c1 :=
      if Nat.dist newFiltered c.target ≤ STATIC_THRESHOLD then
        if STATIC_TIMEOUT < now - c.lastChange then
          { c with filtered := c.target, isStatic := true }
        else
          { c with filtered := newFiltered }
      else
        { c with filtered := newFiltered, lastChange := now }
    if PWM_DEADZONE < Nat.dist c1.filtered c1.lastPulse then
      ({ c1 with lastPulse := c1.filtered }, some c1.filtered)
    else
      (c1, none)

/-- `updateFilteredServoPositions()`: rate-limited filtering of all three
channels; `lastServoCommandTime` is refreshed when any write occurred. -/
def updateFilteredServoPositions (now : Nat) (s : St) : St :=
  if now - s.lastServoCommandTime < SERVO_UPDATE_MIN_INTERVAL then s
  else
    let lr := filterChan now s.lift
    let tr := filterChan now s.tilt
    let gr := filterChan now s.gripper
    let needsUpdate := lr.2.isSome || tr.2.isSome || gr.2.isSome
    { s with lift := lr.1, tilt := tr.1, gripper := gr.1,
             lastServoCommandTime :=
               if needsUpdate then now else s.lastServoCommandTime }

/-- The tail of `handleServoControl()` after the all-static shortcut:
enable handling, PWM control with priority, preset handling and
filtering. -/
def handleServoControlRest (now : Nat) (s : St) : St :=
  let s1 := handleServoEnable s
  if ¬s1.servosAttached then s1
  else
    let pr := handlePWMControl now s1
    if pr.2 then pr.1
    else
      let s3 := handlePresetPositions now pr.1
      updateFilteredServoPositions now s3

/-- `handleServoControl()`: when attached and all channels static, run
only enable handling and watch the command fields (tracked in the
`lastChecked` statics) for changes, skipping the full pass otherwise. -/
def handleServoControl (now : Nat) (s : St) : St :=
  if s.servosAttached ∧ s.lift.isStatic ∧ s.tilt.isStatic ∧
      s.gripper.isStatic then
    let s1 := handleServoEnable s
    if s1.buf.liftPWM ≠ s1.lastCheckedLiftPWM ∨
        s1.buf.tiltPWM ≠ s1.lastCheckedTiltPWM ∨
        s1.buf.gripperPWM ≠ s1.lastCheckedGripperPWM ∨
        s1.buf.servoPosition ≠ s1.lastCheckedPosition then
      let s2 := { s1 with lastCheckedLiftPWM := s1.buf.liftPWM,
                          lastCheckedTiltPWM := s1.buf.tiltPWM,
                          lastCheckedGripperPWM := s1.buf.gripperPWM,
                          lastCheckedPosition := s1.buf.servoPosition }
      handleServoControlRest now s2
    else
      s1
  else
    handleServoControlRest now s

/-- States reachable from startup: the host may write the command fields
of the buffer (`slave.updateBuffer()` ingesting master writes) and the
controller runs its servo-control pass once per cycle. -/
inductive Reachable : St → Prop
  | init : Reachable initSt
  | host (b : Buffer) {s : St} (h : Reachable s) : Reachable (ingest b s)
  | cycle (now : Nat) {s : St} (h : Reachable s) :
      Reachable (handleServoControl now s)

/-- Iterated per-channel filtering: `filterIter τ n c` is the channel
state after `n` eligible filter cycles applied to `c`, the `i`-th cycle
executing at time `τ i`. -/
def filterIter (τ : Nat → Nat) : Nat → Chan → Chan
  | 0, c => c
  | n + 1, c => filterIter (fun i => τ (i + 1)) n (filterChan (τ 0) c).1

/-- Concrete state used to exhibit claims about the preset path: servos
attached, fresh startup values, host has just commanded preset `HOME`. -/
def stC4 : St :=
  { initSt with
      servosAttached := true,
      buf := { initSt.buf with servoEnable := true, servoPosition := 1 } }

/-- A settled (all-static) attached state whose buffered commands have all
been consumed: every channel rests at its target, the buffer mirrors the
last accepted values and the change-watch registers match the buffer. -/
def stSettled : St where
  buf := { servoPosition := 0, servoEnable := true, liftPWM := 1446,
           tiltPWM := 1700, gripperPWM := 500 }
  servosAttached := true
  currentPosition := 0
  lift := { target := 1446, filtered := 1446, lastPulse := 1446,
            lastPWM := 1446, lastChange := 0, isStatic := true }
  tilt := { target := 1700, filtered := 1700, lastPulse := 1700,
            lastPWM := 1700, lastChange := 0, isStatic := true }
  gripper := { target := 500, filtered := 500, lastPulse := 500,
               lastPWM := 500, lastChange := 0, isStatic := true }
  lastCheckedLiftPWM := 1446
  lastCheckedTiltPWM := 1700
  lastCheckedGripperPWM := 500
  lastCheckedPosition := 0
  lastServoCommandTime := 0
  currentLiftPulse := 1550
  currentTiltPulse := 1700
  currentGripperPulse := 500

/-- Settled state with preset 2 active, receiving a fresh raw lift
command `1200` (used for the precedence claim). -/
def stW3 : St :=
  { stSettled with
      currentPosition := 2,
      buf := { servoPosition := 2, servoEnable := true, liftPWM := 1200,
               tiltPWM := 1700, gripperPWM := 500 } }

/-- Settled state receiving one out-of-range command per bound and one
within-deadzone command (used for the silent-drop claim). -/
def stW6 : St :=
  { stSettled with
      buf := { servoPosition := 0, servoEnable := true, liftPWM := 5000,
               tiltPWM := 1695, gripperPWM := 100 } }

/-- Settled state commanded with the unmapped preset code 7. -/
def stW9 : St :=
  { stSettled with buf := { stSettled.buf with servoPosition := 7 } }

/-- Settled state in which the host has just lowered the enable flag
while preset code 1 is still active and buffered, and the lift channel's
last physically sent value (1448) differs from its locked filtered
position (1446). -/
def stC7 : St where
  buf := { servoPosition := 1, servoEnable := false, liftPWM := 0,
           tiltPWM := 0, gripperPWM := 0 }
  servosAttached := true
  currentPosition := 1
  lift := { target := 1446, filtered := 1446, lastPulse := 1448,
            lastPWM := 0, lastChange := 500, isStatic := true }
  tilt := { target := 1791, filtered := 1791, lastPulse := 1791,
            lastPWM := 0, lastChange := 500, isStatic := true }
  gripper := { target := 500, filtered := 500, lastPulse := 500,
               lastPWM := 0, lastChange := 500, isStatic := true }
  lastCheckedLiftPWM := 0
  lastCheckedTiltPWM := 0
  lastCheckedGripperPWM := 0
  lastCheckedPosition := 1
  lastServoCommandTime := 1090
  currentLiftPulse := 1550
  currentTiltPulse := 1700
  currentGripperPulse := 500

/-- The state of `stC7` after the disable cycle followed by the host
raising the enable flag again (no command field changed in between). -/
def stC7mid : St :=
  let s1 := handleServoControl 1000 stC7
  { s1 with buf := { s1.buf with servoEnable := true } }

/-- The state after the re-enable cycle of the `stC7` round trip. -/
def stC7post : St := handleServoControl 1100 stC7mid

/-- Settled state with the enable flag lowered and no preset code in the
buffer (used for the amended round-trip claim). -/
def stW7 : St :=
  { stSettled with buf := { stSettled.buf with servoEnable := false } }

/-- A channel one step away from its target with the static timeout
already elapsed and the last sent value within the deadzone of the
target (used for the lock-without-write claim). -/
def chanW10 : Chan :=
  { target := 1446, filtered := 1445, lastPulse := 1448, lastPWM := 1446,
    lastChange := 0, isStatic := false }

/-- A locked channel at the lift midpoint about to receive the raw
command 1630 (used for the convergence claim's witness). -/
def chanW2 : Chan :=
  { target := 1550, filtered := 1550, lastPulse := 1550, lastPWM := 0,
    lastChange := 0, isStatic := true }

/-- A detached state captured mid-motion (the lift filter was still
converging towards 1446 when the servos were disabled; the last value
physically sent was 1305), with the host raising the enable flag. -/
def stC5 : St where
  buf := { servoPosition := 0, servoEnable := true, liftPWM := 1446,
           tiltPWM := 0, gripperPWM := 0 }
  servosAttached := false
  currentPosition := 0
  lift := { target := 1446, filtered := 1300, lastPulse := 1305,
            lastPWM := 1446, lastChange := 700, isStatic := false }
  tilt := { target := 1700, filtered := 1700, lastPulse := 1700,
            lastPWM := 0, lastChange := 0, isStatic := true }
  gripper := { target := 500, filtered := 500, lastPulse := 500,
               lastPWM := 0, lastChange := 0, isStatic := true }
  lastCheckedLiftPWM := 1446
  lastCheckedTiltPWM := 0
  lastCheckedGripperPWM := 0
  lastCheckedPosition := 0
  lastServoCommandTime := 720
  currentLiftPulse := 1550
  currentTiltPulse := 1700
  currentGripperPulse := 500

/-- The host buffer write that raises the enable flag on a fresh
startup state (used as a reachable enable-edge witness). -/
def bEnable : Buffer :=
  { servoPosition := 0, servoEnable := true, liftPWM := 0, tiltPWM := 0,
    gripperPWM := 0 }

/-- Per-channel bound invariant: target, filtered and last-sent values all
lie within the channel's legal range. -/
def ChanInv (lo hi : Nat) (c : Chan) : Prop :=
  lo ≤ c.target ∧ c.target ≤ hi ∧ lo ≤ c.filtered ∧ c.filtered ≤ hi ∧
    lo ≤ c.lastPulse ∧ c.lastPulse ≤ hi

instance (lo hi : Nat) (c : Chan) : Decidable (ChanInv lo hi c) := by
  unfold ChanInv; infer_instance

/-- Controller-wide bound invariant. -/
def Inv (s : St) : Prop :=
  ChanInv LIFT_MIN LIFT_MAX s.lift ∧ ChanInv TILT_MIN TILT_MAX s.tilt ∧
    ChanInv GRIPPER_MIN GRIPPER_MAX s.gripper

instance (s : St) : Decidable (Inv s) := by
  unfold Inv; infer_instance

/-- In every state in which the servos are detached, the applied-preset
register is `NONE` (the disable edge is the only way to detach, and it
clears the register). -/
def DetachedNone (s : St) : Prop :=
  s.servosAttached = false → s.currentPosition = NONE

/-- A channel settled exactly at target `T`. -/
def DoneAt (T : Nat) (c : Chan) : Prop :=
  c.isStatic = true ∧ c.filtered = T ∧ c.target = T

end Robff

namespace Robff

/-! ### Bound invariant (claim C1) -/

theorem acceptPWM_chanInv (lo hi cmd now : Nat) (c : Chan)
    (h : ChanInv lo hi c) : ChanInv lo hi (acceptPWM lo hi cmd now c).1 := by
  unfold acceptPWM
  split
  next hc => simp only [ChanInv] at h ⊢; omega
  next => exact h

theorem filterChan_chanInv (lo hi now : Nat) (c : Chan)
    (h : ChanInv lo hi c) : ChanInv lo hi (filterChan now c).1 := by
  simp only [filterChan]
  split
  · exact h
  · simp only [ChanInv, PWM_FILTER_ALPHA, PWM_DEADZONE, STATIC_THRESHOLD,
      STATIC_TIMEOUT, Nat.dist] at h ⊢
    split <;> split <;> (try split) <;> simp_all <;> omega

theorem presetTargets_inv (p : Nat) (s : St) (h : Inv s) :
    Inv (presetTargets p s) := by
  unfold presetTargets
  split <;>
    simp only [Inv, ChanInv, LIFT_MIN, LIFT_MAX, TILT_MIN, TILT_MAX,
      GRIPPER_MIN, GRIPPER_MAX] at h ⊢ <;> omega

theorem moveToPosition_inv (p now : Nat) (s : St) (h : Inv s) :
    Inv (moveToPosition p now s) := by
  unfold moveToPosition
  split
  · exact h
  · have h1 := presetTargets_inv p s h
    simp only [Inv, ChanInv] at h1 ⊢
    omega

theorem syncPWMToBuffer_chans (s : St) :
    (syncPWMToBuffer s).lift = s.lift ∧ (syncPWMToBuffer s).tilt = s.tilt ∧
      (syncPWMToBuffer s).gripper = s.gripper := by
  simp [syncPWMToBuffer]

theorem handlePresetPositions_inv (now : Nat) (s : St) (h : Inv s) :
    Inv (handlePresetPositions now s) := by
  unfold handlePresetPositions
  split
  · have h1 := moveToPosition_inv s.buf.servoPosition now s h
    simp only [Inv, ChanInv, syncPWMToBuffer] at h1 ⊢
    exact h1
  · exact h

theorem handleServoEnable_chans (s : St) :
    (handleServoEnable s).lift = s.lift ∧
      (handleServoEnable s).tilt = s.tilt ∧
      (handleServoEnable s).gripper = s.gripper ∧
      (handleServoEnable s).buf = s.buf := by
  unfold handleServoEnable
  split
  · simp
  · split <;> simp

theorem handleServoEnable_inv (s : St) (h : Inv s) :
    Inv (handleServoEnable s) := by
  have hc := handleServoEnable_chans s
  simp only [Inv] at h ⊢
  rw [hc.1, hc.2.1, hc.2.2.1]
  exact h

theorem handlePWMControl_inv (now : Nat) (s : St) (h : Inv s) :
    Inv (handlePWMControl now s).1 := by
  obtain ⟨h1, h2, h3⟩ := h
  have a1 := acceptPWM_chanInv LIFT_MIN LIFT_MAX s.buf.liftPWM now s.lift h1
  have a2 := acceptPWM_chanInv TILT_MIN TILT_MAX s.buf.tiltPWM now s.tilt h2
  have a3 := acceptPWM_chanInv GRIPPER_MIN GRIPPER_MAX s.buf.gripperPWM now
    s.gripper h3
  simp only [handlePWMControl]
  split <;> exact ⟨a1, a2, a3⟩

theorem updateFilteredServoPositions_inv (now : Nat) (s : St) (h : Inv s) :
    Inv (updateFilteredServoPositions now s) := by
  obtain ⟨h1, h2, h3⟩ := h
  have a1 := filterChan_chanInv LIFT_MIN LIFT_MAX now s.lift h1
  have a2 := filterChan_chanInv TILT_MIN TILT_MAX now s.tilt h2
  have a3 := filterChan_chanInv GRIPPER_MIN GRIPPER_MAX now s.gripper h3
  unfold updateFilteredServoPositions
  split
  · exact ⟨h1, h2, h3⟩
  · exact ⟨a1, a2, a3⟩

theorem handleServoControlRest_inv (now : Nat) (s : St) (h : Inv s) :
    Inv (handleServoControlRest now s) := by
  simp only [handleServoControlRest]
  have he := handleServoEnable_inv s h
  split
  · exact he
  · split
    · exact handlePWMControl_inv now _ he
    · exact updateFilteredServoPositions_inv now _
        (handlePresetPositions_inv now _ (handlePWMControl_inv now _ he))

theorem handleServoControl_inv (now : Nat) (s : St) (h : Inv s) :
    Inv (handleServoControl now s) := by
  simp only [handleServoControl]
  split
  · split
    · apply handleServoControlRest_inv
      have he := handleServoEnable_inv s h
      simp only [Inv, ChanInv] at he ⊢
      exact he
    · exact handleServoEnable_inv s h
  · exact handleServoControlRest_inv now s h

theorem ingest_inv (b : Buffer) (s : St) (h : Inv s) : Inv (ingest b s) := by
  simp only [Inv, ingest] at h ⊢
  exact h

theorem reachable_inv (s : St) (h : Reachable s) : Inv s := by
  induction h with
  | init => decide
  | host b h ih => exact ingest_inv b _ ih
  | cycle now h ih => exact handleServoControl_inv _ _ ih

end Robff

namespace Robff

/-! ### Basic characterizations of the servo-control functions -/

theorem acceptPWM_same (lo hi now : Nat) (c : Chan) :
    acceptPWM lo hi c.lastPWM now c = (c, false) := by
  unfold acceptPWM
  rw [if_neg]
  simp [Nat.dist_self, PWM_DEADZONE]

theorem acceptPWM_accepted (lo hi cmd now : Nat) (c : Chan)
    (h : (acceptPWM lo hi cmd now c).2 = true) :
    (acceptPWM lo hi cmd now c).1 =
      { c with target := cmd, lastPWM := cmd, lastChange := now,
               isStatic := false } := by
  unfold acceptPWM at h ⊢
  split at h
  · rw [if_pos]; assumption
  · simp at h

theorem filterChan_static (now : Nat) (c : Chan) (h : c.isStatic = true) :
    filterChan now c = (c, none) := by
  unfold filterChan
  rw [if_pos h]

theorem handleServoEnable_noEdge (s : St) (he : s.buf.servoEnable = true)
    (ha : s.servosAttached = true) : handleServoEnable s = s := by
  unfold handleServoEnable
  rw [if_neg, if_neg] <;> simp [he, ha]

theorem handlePWMControl_lift (now : Nat) (s : St) :
    (handlePWMControl now s).1.lift =
      (acceptPWM LIFT_MIN LIFT_MAX s.buf.liftPWM now s.lift).1 := by
  simp only [handlePWMControl]
  split <;> rfl

theorem handlePWMControl_tilt (now : Nat) (s : St) :
    (handlePWMControl now s).1.tilt =
      (acceptPWM TILT_MIN TILT_MAX s.buf.tiltPWM now s.tilt).1 := by
  simp only [handlePWMControl]
  split <;> rfl

theorem handlePWMControl_gripper (now : Nat) (s : St) :
    (handlePWMControl now s).1.gripper =
      (acceptPWM GRIPPER_MIN GRIPPER_MAX s.buf.gripperPWM now s.gripper).1 := by
  simp only [handlePWMControl]
  split <;> rfl

/-- If all three buffered PWM values sit at the last accepted values, the
PWM-control pass changes nothing and reports no change. -/
theorem handlePWMControl_noop (now : Nat) (s : St)
    (h1 : s.buf.liftPWM = s.lift.lastPWM)
    (h2 : s.buf.tiltPWM = s.tilt.lastPWM)
    (h3 : s.buf.gripperPWM = s.gripper.lastPWM) :
    handlePWMControl now s = (s, false) := by
  simp only [handlePWMControl, h1, h2, h3, acceptPWM_same]
  rfl

/-- A cycle of the filter pass leaves an all-static state untouched. -/
theorem updateFilteredServoPositions_static (now : Nat) (s : St)
    (h1 : s.lift.isStatic = true) (h2 : s.tilt.isStatic = true)
    (h3 : s.gripper.isStatic = true) :
    updateFilteredServoPositions now s = s := by
  unfold updateFilteredServoPositions
  split
  · rfl
  · simp [filterChan_static, h1, h2, h3]

theorem presetTargets_frame (p : Nat) (s : St) :
    (presetTargets p s).lift.filtered = s.lift.filtered ∧
      (presetTargets p s).lift.lastPulse = s.lift.lastPulse ∧
      (presetTargets p s).tilt.filtered = s.tilt.filtered ∧
      (presetTargets p s).tilt.lastPulse = s.tilt.lastPulse ∧
      (presetTargets p s).gripper.filtered = s.gripper.filtered ∧
      (presetTargets p s).gripper.lastPulse = s.gripper.lastPulse := by
  unfold presetTargets
  split <;> simp

theorem presetTargets_unmapped (p : Nat) (s : St) (h : 6 ≤ p) :
    presetTargets p s = s := by
  unfold presetTargets
  split
  any_goals omega
  rfl

end Robff

namespace Robff

/-! ### Frame lemmas for the attach flag and preset state -/

theorem presetTargets_servosAttached (p : Nat) (s : St) :
    (presetTargets p s).servosAttached = s.servosAttached := by
  unfold presetTargets
  split <;> rfl

theorem moveToPosition_servosAttached (p now : Nat) (s : St) :
    (moveToPosition p now s).servosAttached = s.servosAttached := by
  unfold moveToPosition
  split
  · rfl
  · simp [presetTargets_servosAttached]

theorem handlePresetPositions_servosAttached (now : Nat) (s : St) :
    (handlePresetPositions now s).servosAttached = s.servosAttached := by
  unfold handlePresetPositions
  split
  · simp [syncPWMToBuffer, moveToPosition_servosAttached]
  · rfl

theorem handlePWMControl_servosAttached (now : Nat) (s : St) :
    (handlePWMControl now s).1.servosAttached = s.servosAttached := by
  simp only [handlePWMControl]
  split <;> rfl

theorem updateFilteredServoPositions_servosAttached (now : Nat) (s : St) :
    (updateFilteredServoPositions now s).servosAttached = s.servosAttached := by
  unfold updateFilteredServoPositions
  split <;> rfl

theorem handleServoEnable_detachedNone (s : St) (h : DetachedNone s) :
    DetachedNone (handleServoEnable s) := by
  unfold handleServoEnable
  split
  · intro hf; simp at hf
  · split
    · intro _; rfl
    · exact h

theorem handleServoControlRest_detachedNone (now : Nat) (s : St)
    (h : DetachedNone s) : DetachedNone (handleServoControlRest now s) := by
  simp only [handleServoControlRest]
  have h1 := handleServoEnable_detachedNone s h
  split
  · exact h1
  next hatt =>
    have hatt' : (handleServoEnable s).servosAttached = true := by
      by_contra hc
      exact hatt (by simpa using hc)
    split
    · intro hf
      rw [handlePWMControl_servosAttached] at hf
      rw [hatt'] at hf
      cases hf
    · intro hf
      rw [updateFilteredServoPositions_servosAttached,
        handlePresetPositions_servosAttached,
        handlePWMControl_servosAttached, hatt'] at hf
      cases hf

theorem reachable_detachedNone (s : St) (h : Reachable s) : DetachedNone s := by
  induction h with
  | init => intro _; rfl
  | host b h ih => intro hf; exact ih hf
  | cycle now h ih =>
    simp only [handleServoControl]
    split
    · split
      · apply handleServoControlRest_detachedNone
        intro hf
        exact handleServoEnable_detachedNone _ ih hf
      · exact handleServoEnable_detachedNone _ ih
    · exact handleServoControlRest_detachedNone now _ ih

end Robff

namespace Robff

/-! ### Claims -/

/-- Claim C1: in every reachable controller state, every channel's
filtered position lies within that channel's bounds — after
initialization, after every filter step, after every static lock and
after every preset application. -/
theorem C1_filtered_within_bounds (s : St) (h : Reachable s) :
    (LIFT_MIN ≤ s.lift.filtered ∧ s.lift.filtered ≤ LIFT_MAX) ∧
      (TILT_MIN ≤ s.tilt.filtered ∧ s.tilt.filtered ≤ TILT_MAX) ∧
      (GRIPPER_MIN ≤ s.gripper.filtered ∧
        s.gripper.filtered ≤ GRIPPER_MAX) := by
  obtain ⟨⟨_, _, a1, a2, _, _⟩, ⟨_, _, b1, b2, _, _⟩, ⟨_, _, c1, c2, _, _⟩⟩ :=
    reachable_inv s h
  exact ⟨⟨a1, a2⟩, ⟨b1, b2⟩, ⟨c1, c2⟩⟩

/-- Witness for C1 at the initial state. -/
theorem C1_witness :
    Reachable initSt ∧
      ((LIFT_MIN ≤ initSt.lift.filtered ∧ initSt.lift.filtered ≤ LIFT_MAX) ∧
        (TILT_MIN ≤ initSt.tilt.filtered ∧
          initSt.tilt.filtered ≤ TILT_MAX) ∧
        (GRIPPER_MIN ≤ initSt.gripper.filtered ∧
          initSt.gripper.filtered ≤ GRIPPER_MAX)) :=
  ⟨Reachable.init, C1_filtered_within_bounds initSt Reachable.init⟩

/-- Claim C4 (code bug): applying preset `HOME` resolves the lift target
to 1446 and the tilt target to 1791, but `syncPWMToBuffer` copies the
never-updated `currentLiftPulse`/`currentTiltPulse`/`currentGripperPulse`
variables into the status fields, so the buffer reports the stale
startup constants 1550/1700/500 instead of the resolved targets. -/
theorem C4_preset_not_mirrored :
    (handlePresetPositions 1000 stC4).lift.target = 1446 ∧
      (handlePresetPositions 1000 stC4).tilt.target = 1791 ∧
      (handlePresetPositions 1000 stC4).buf.liftPWM = 1550 ∧
      (handlePresetPositions 1000 stC4).buf.tiltPWM = 1700 ∧
      (handlePresetPositions 1000 stC4).buf.liftPWM ≠
        (handlePresetPositions 1000 stC4).lift.target ∧
      (handlePresetPositions 1000 stC4).buf.tiltPWM ≠
        (handlePresetPositions 1000 stC4).tilt.target := by
  decide

/-- Counterexample to claim C5: on a DISABLED → ENABLED transition taken
from a mid-motion state, the lift channel's target and filtered position
are not initialized to the channel's current resting value (the last
value physically sent, 1305): the old target 1446 and filtered value
1300 are retained, so a previously interrupted motion resumes. -/
theorem C5_counterexample :
    stC5.servosAttached = false ∧ stC5.buf.servoEnable = true ∧
      (handleServoEnable stC5).servosAttached = true ∧
      (handleServoEnable stC5).lift.lastPulse = 1305 ∧
      (handleServoEnable stC5).lift.target = 1446 ∧
      (handleServoEnable stC5).lift.filtered = 1300 ∧
      (handleServoEnable stC5).lift.target ≠
        (handleServoEnable stC5).lift.lastPulse ∧
      (handleServoEnable stC5).lift.filtered ≠
        (handleServoEnable stC5).lift.lastPulse := by
  decide

/-- Claim C5 as amended: on every reachable DISABLED → ENABLED
transition the controller attaches the outputs and changes nothing
else — every channel's target and filtered position are retained
unchanged, and the active-preset code is already `NONE` (it was reset on
the preceding disable edge), so it is `NONE` after the transition. -/
theorem C5_enable_edge_amended (s : St) (hr : Reachable s)
    (hd : s.servosAttached = false) (he : s.buf.servoEnable = true) :
    handleServoEnable s = { s with servosAttached := true } ∧
      (handleServoEnable s).currentPosition = NONE := by
  have hn := reachable_detachedNone s hr hd
  have he1 : handleServoEnable s = { s with servosAttached := true } := by
    unfold handleServoEnable
    rw [if_pos]
    simp [he, hd]
  exact ⟨he1, by rw [he1]; exact hn⟩

/-- Witness for the amended C5 on the reachable state in which the host
has just raised the enable flag over a fresh startup state. -/
theorem C5_witness :
    (ingest bEnable initSt).servosAttached = false ∧
      (ingest bEnable initSt).buf.servoEnable = true ∧
      handleServoEnable (ingest bEnable initSt) =
        { ingest bEnable initSt with servosAttached := true } ∧
      (handleServoEnable (ingest bEnable initSt)).currentPosition = NONE :=
  ⟨rfl, rfl,
    (C5_enable_edge_amended (ingest bEnable initSt)
      (Reachable.host bEnable Reachable.init) rfl rfl).1,
    (C5_enable_edge_amended (ingest bEnable initSt)
      (Reachable.host bEnable Reachable.init) rfl rfl).2⟩

end Robff

namespace Robff

theorem acceptPWM_drop (lo hi cmd now : Nat) (c : Chan)
    (h : cmd < lo ∨ hi < cmd ∨ Nat.dist cmd c.lastPWM ≤ PWM_DEADZONE) :
    acceptPWM lo hi cmd now c = (c, false) := by
  unfold acceptPWM
  rw [if_neg]
  simp only [PWM_DEADZONE, Nat.dist] at h ⊢
  omega

/-- Claim C6: a raw target command that is out of range or within the
deadzone of the last accepted value is silently dropped: the channel
record (target, filtered, static flag, last accepted value, change
timestamp) is left completely unchanged, nothing is clamped, and when
all three channels drop their commands the whole pass is a no-op
reporting no change. -/
theorem C6_silent_drop (now : Nat) (s : St) :
    ((s.buf.liftPWM < LIFT_MIN ∨ LIFT_MAX < s.buf.liftPWM ∨
        Nat.dist s.buf.liftPWM s.lift.lastPWM ≤ PWM_DEADZONE) →
      (handlePWMControl now s).1.lift = s.lift) ∧
      ((s.buf.tiltPWM < TILT_MIN ∨ TILT_MAX < s.buf.tiltPWM ∨
          Nat.dist s.buf.tiltPWM s.tilt.lastPWM ≤ PWM_DEADZONE) →
        (handlePWMControl now s).1.tilt = s.tilt) ∧
      ((s.buf.gripperPWM < GRIPPER_MIN ∨ GRIPPER_MAX < s.buf.gripperPWM ∨
          Nat.dist s.buf.gripperPWM s.gripper.lastPWM ≤ PWM_DEADZONE) →
        (handlePWMControl now s).1.gripper = s.gripper) ∧
      ((s.buf.liftPWM < LIFT_MIN ∨ LIFT_MAX < s.buf.liftPWM ∨
          Nat.dist s.buf.liftPWM s.lift.lastPWM ≤ PWM_DEADZONE) →
        (s.buf.tiltPWM < TILT_MIN ∨ TILT_MAX < s.buf.tiltPWM ∨
          Nat.dist s.buf.tiltPWM s.tilt.lastPWM ≤ PWM_DEADZONE) →
        (s.buf.gripperPWM < GRIPPER_MIN ∨ GRIPPER_MAX < s.buf.gripperPWM ∨
          Nat.dist s.buf.gripperPWM s.gripper.lastPWM ≤ PWM_DEADZONE) →
        handlePWMControl now s = (s, false)) := by
  refine ⟨fun h => ?_, fun h => ?_, fun h => ?_, fun h1 h2 h3 => ?_⟩
  · rw [handlePWMControl_lift, acceptPWM_drop _ _ _ _ _ h]
  · rw [handlePWMControl_tilt, acceptPWM_drop _ _ _ _ _ h]
  · rw [handlePWMControl_gripper, acceptPWM_drop _ _ _ _ _ h]
  · simp only [handlePWMControl, acceptPWM_drop _ _ _ _ _ h1,
      acceptPWM_drop _ _ _ _ _ h2, acceptPWM_drop _ _ _ _ _ h3]
    rfl

/-- Witness for C6: an over-range lift command, a within-deadzone tilt
command and an under-range gripper command are all dropped without any
state change. -/
theorem C6_witness :
    (handlePWMControl 50 stW6).1.lift = stW6.lift ∧
      (handlePWMControl 50 stW6).1.tilt = stW6.tilt ∧
      (handlePWMControl 50 stW6).1.gripper = stW6.gripper ∧
      handlePWMControl 50 stW6 = (stW6, false) := by
  have h := C6_silent_drop 50 stW6
  exact ⟨h.1 (by decide), h.2.1 (by decide), h.2.2.1 (by decide),
    h.2.2.2 (by decide) (by decide) (by decide)⟩

/-- Claim C9: applying any buffered preset code that differs from the
currently applied one and is non-zero — mapped or unmapped — clears the
static flag of all three channels, stamps all three change times, and
resets every channel's filtered value to the last physically sent value;
for unmapped codes (≥ 6, no `case` in the switch) all three targets are
left unchanged, so settled channels are merely un-locked and re-driven
toward their existing targets. -/
theorem C9_preset_unlocks_all (p now : Nat) (s : St)
    (ha : s.servosAttached = true) (hp : s.buf.servoPosition = p)
    (h1 : p ≠ s.currentPosition) (h2 : p ≠ NONE) :
    (handlePresetPositions now s).lift.isStatic = false ∧
      (handlePresetPositions now s).tilt.isStatic = false ∧
      (handlePresetPositions now s).gripper.isStatic = false ∧
      (handlePresetPositions now s).lift.lastChange = now ∧
      (handlePresetPositions now s).tilt.lastChange = now ∧
      (handlePresetPositions now s).gripper.lastChange = now ∧
      (handlePresetPositions now s).lift.filtered = s.lift.lastPulse ∧
      (handlePresetPositions now s).tilt.filtered = s.tilt.lastPulse ∧
      (handlePresetPositions now s).gripper.filtered = s.gripper.lastPulse ∧
      (6 ≤ p →
        (handlePresetPositions now s).lift.target = s.lift.target ∧
          (handlePresetPositions now s).tilt.target = s.tilt.target ∧
          (handlePresetPositions now s).gripper.target = s.gripper.target) := by
  subst hp
  have hfr := presetTargets_frame s.buf.servoPosition s
  unfold handlePresetPositions
  rw [if_pos ⟨h1, h2⟩]
  unfold moveToPosition
  rw [if_neg (by simp [ha])]
  simp only [syncPWMToBuffer]
  refine ⟨trivial, trivial, trivial, trivial, trivial, trivial, hfr.2.1,
    hfr.2.2.2.1, hfr.2.2.2.2.2, fun h6 => ?_⟩
  rw [presetTargets_unmapped _ _ h6]
  exact ⟨rfl, rfl, rfl⟩

/-- Witness for C9: the unmapped preset code 7 over a settled state. -/
theorem C9_witness :
    (handlePresetPositions 60 stW9).lift.isStatic = false ∧
      (handlePresetPositions 60 stW9).tilt.isStatic = false ∧
      (handlePresetPositions 60 stW9).gripper.isStatic = false ∧
      (handlePresetPositions 60 stW9).lift.lastChange = 60 ∧
      (handlePresetPositions 60 stW9).tilt.lastChange = 60 ∧
      (handlePresetPositions 60 stW9).gripper.lastChange = 60 ∧
      (handlePresetPositions 60 stW9).lift.filtered = stW9.lift.lastPulse ∧
      (handlePresetPositions 60 stW9).tilt.filtered = stW9.tilt.lastPulse ∧
      (handlePresetPositions 60 stW9).gripper.filtered =
        stW9.gripper.lastPulse ∧
      (handlePresetPositions 60 stW9).lift.target = stW9.lift.target ∧
      (handlePresetPositions 60 stW9).tilt.target = stW9.tilt.target ∧
      (handlePresetPositions 60 stW9).gripper.target = stW9.gripper.target := by
  have h := C9_preset_unlocks_all 7 60 stW9 (by decide) (by decide)
    (by decide) (by decide)
  obtain ⟨a1, a2, a3, b1, b2, b3, c1, c2, c3, ht⟩ := h
  obtain ⟨t1, t2, t3⟩ := ht (by decide)
  exact ⟨a1, a2, a3, b1, b2, b3, c1, c2, c3, t1, t2, t3⟩

/-- Claim C10: when the lock conditions hold (close to target beyond the
static timeout) and the target is within the deadzone of the last value
actually sent, the channel locks (`filtered := target`, `isStatic :=
true`) but no physical write is issued and `lastPulse` is unchanged, so
the physical output stays up to one deadzone away from the target; and
while a channel is static the filter pass never writes nor changes it. -/
theorem C10_lock_without_write (now : Nat) (c : Chan)
    (h0 : c.isStatic = false)
    (h1 : Nat.dist
        (((PWM_FILTER_ALPHA - 1) * c.filtered + c.target) /
          PWM_FILTER_ALPHA) c.target ≤ STATIC_THRESHOLD)
    (h2 : STATIC_TIMEOUT < now - c.lastChange)
    (h3 : Nat.dist c.target c.lastPulse ≤ PWM_DEADZONE) :
    filterChan now c =
        ({ c with filtered := c.target, isStatic := true }, none) ∧
      (∀ m : Nat, ∀ c' : Chan, c'.isStatic = true →
        filterChan m c' = (c', none)) := by
  constructor
  · have h4 : ¬PWM_DEADZONE < Nat.dist c.target c.lastPulse :=
      Nat.not_lt.mpr h3
    simp only [filterChan, h0]
    rw [if_neg (by simp), if_pos h1, if_pos h2]
    simp only []
    rw [if_neg h4]
  · exact fun m c' hs => filterChan_static m c' hs

/-- Witness for C10: a channel one unit below its target with the
timeout elapsed and `lastPulse` two units away locks without a write. -/
theorem C10_witness :
    Nat.dist chanW10.target chanW10.lastPulse ≤ PWM_DEADZONE ∧
      filterChan 301 chanW10 =
        ({ chanW10 with filtered := chanW10.target, isStatic := true },
          none) :=
  ⟨by decide,
    (C10_lock_without_write 301 chanW10 (by decide) (by decide) (by decide)
      (by decide)).1⟩

end Robff

namespace Robff

theorem handlePWMControl_accepted (now : Nat) (s : St)
    (hacc : (acceptPWM LIFT_MIN LIFT_MAX s.buf.liftPWM now s.lift).2 =
      true) :
    (handlePWMControl now s).2 = true ∧
      (handlePWMControl now s).1.currentPosition = NONE ∧
      (handlePWMControl now s).1.buf.servoPosition = NONE := by
  simp only [handlePWMControl, hacc, Bool.true_or, if_pos]
  exact ⟨trivial, trivial, trivial⟩

/-- Core of the precedence claim at the level of the post-enable pass:
an accepted raw lift command makes the cycle return right after PWM
control with the preset state cleared, the lift target replaced and the
other targets untouched. -/
theorem handleServoControlRest_precedence (now : Nat) (s : St)
    (ha : s.servosAttached = true) (he : s.buf.servoEnable = true)
    (hdz : PWM_DEADZONE < Nat.dist s.buf.liftPWM s.lift.lastPWM)
    (hlo : LIFT_MIN ≤ s.buf.liftPWM) (hhi : s.buf.liftPWM ≤ LIFT_MAX)
    (ht : s.buf.tiltPWM = s.tilt.lastPWM)
    (hg : s.buf.gripperPWM = s.gripper.lastPWM) :
    (handleServoControlRest now s).currentPosition = NONE ∧
      (handleServoControlRest now s).buf.servoPosition = NONE ∧
      (handleServoControlRest now s).lift.target = s.buf.liftPWM ∧
      (handleServoControlRest now s).tilt.target = s.tilt.target ∧
      (handleServoControlRest now s).gripper.target = s.gripper.target := by
  have hacc : (acceptPWM LIFT_MIN LIFT_MAX s.buf.liftPWM now s.lift).2 =
      true := by
    unfold acceptPWM
    rw [if_pos ⟨hdz, hlo, hhi⟩]
  obtain ⟨hpw2, hcp, hsp⟩ := handlePWMControl_accepted now s hacc
  have hrw : handleServoControlRest now s = (handlePWMControl now s).1 := by
    simp only [handleServoControlRest, handleServoEnable_noEdge s he ha]
    rw [if_neg (by simp [ha]), if_pos hpw2]
  rw [hrw]
  refine ⟨hcp, hsp, ?_, ?_, ?_⟩
  · rw [handlePWMControl_lift, acceptPWM_accepted _ _ _ _ _ hacc]
  · rw [handlePWMControl_tilt, ht, acceptPWM_same]
  · rw [handlePWMControl_gripper, hg, acceptPWM_same]

/-- Claim C3: while a preset code is active, an arriving raw lift
command that clears the deadzone and lies within bounds takes precedence
in the same cycle: the applied-preset register and the buffer's preset
field both become `NONE`, the lift target becomes the raw command and
the other channels' targets are unchanged. -/
theorem C3_raw_command_precedence (now : Nat) (s : St)
    (ha : s.servosAttached = true) (he : s.buf.servoEnable = true)
    (harr : s.buf.liftPWM ≠ s.lastCheckedLiftPWM)
    (hdz : PWM_DEADZONE < Nat.dist s.buf.liftPWM s.lift.lastPWM)
    (hlo : LIFT_MIN ≤ s.buf.liftPWM) (hhi : s.buf.liftPWM ≤ LIFT_MAX)
    (ht : s.buf.tiltPWM = s.tilt.lastPWM)
    (hg : s.buf.gripperPWM = s.gripper.lastPWM) :
    (handleServoControl now s).currentPosition = NONE ∧
      (handleServoControl now s).buf.servoPosition = NONE ∧
      (handleServoControl now s).lift.target = s.buf.liftPWM ∧
      (handleServoControl now s).tilt.target = s.tilt.target ∧
      (handleServoControl now s).gripper.target = s.gripper.target := by
  simp only [handleServoControl]
  split
  · rw [handleServoEnable_noEdge s he ha]
    rw [if_pos (Or.inl harr)]
    exact handleServoControlRest_precedence now _ ha he hdz hlo hhi ht hg
  · exact handleServoControlRest_precedence now s ha he hdz hlo hhi ht hg

/-- Witness for C3: raw lift command 1200 arriving while preset 2 is
active over a settled state. -/
theorem C3_witness :
    (handleServoControl 50 stW3).currentPosition = NONE ∧
      (handleServoControl 50 stW3).buf.servoPosition = NONE ∧
      (handleServoControl 50 stW3).lift.target = stW3.buf.liftPWM ∧
      (handleServoControl 50 stW3).tilt.target = stW3.tilt.target ∧
      (handleServoControl 50 stW3).gripper.target = stW3.gripper.target :=
  C3_raw_command_precedence 50 stW3 (by decide) (by decide) (by decide)
    (by decide) (by decide) (by decide) (by decide) (by decide)

end Robff

namespace Robff

/-- Claim C8: re-sending the raw value already accepted for every channel
leaves the PWM pass a no-op (no target change, no static-flag reset, no
timestamp reset); a static channel receives no physical write from the
filter; and over a settled state whose change-watch registers match the
buffer, the entire servo-control cycle leaves the state literally
unchanged — in particular no physical write occurs. -/
theorem C8_resend_is_noop (now : Nat) (s : St)
    (h1 : s.buf.liftPWM = s.lift.lastPWM)
    (h2 : s.buf.tiltPWM = s.tilt.lastPWM)
    (h3 : s.buf.gripperPWM = s.gripper.lastPWM) :
    handlePWMControl now s = (s, false) ∧
      (s.lift.isStatic = true → filterChan now s.lift = (s.lift, none)) ∧
      (s.servosAttached = true → s.buf.servoEnable = true →
        s.lift.isStatic = true → s.tilt.isStatic = true →
        s.gripper.isStatic = true →
        s.buf.liftPWM = s.lastCheckedLiftPWM →
        s.buf.tiltPWM = s.lastCheckedTiltPWM →
        s.buf.gripperPWM = s.lastCheckedGripperPWM →
        s.buf.servoPosition = s.lastCheckedPosition →
        handleServoControl now s = s) := by
  refine ⟨handlePWMControl_noop now s h1 h2 h3,
    fun hs => filterChan_static now s.lift hs,
    fun ha he hl ht hg c1 c2 c3 c4 => ?_⟩
  simp only [handleServoControl]
  rw [if_pos ⟨ha, hl, ht, hg⟩, handleServoEnable_noEdge s he ha, if_neg]
  push_neg
  exact ⟨c1, c2, c3, c4⟩

/-- Witness for C8 on the settled state `stSettled`. -/
theorem C8_witness :
    handlePWMControl 5 stSettled = (stSettled, false) ∧
      filterChan 5 stSettled.lift = (stSettled.lift, none) ∧
      handleServoControl 5 stSettled = stSettled := by
  have h := C8_resend_is_noop 5 stSettled (by decide) (by decide) (by decide)
  exact ⟨h.1, h.2.1 (by decide),
    h.2.2 (by decide) (by decide) (by decide) (by decide) (by decide)
      (by decide) (by decide) (by decide) (by decide)⟩

theorem handleServoEnable_disable (s : St) (he : s.buf.servoEnable = false)
    (ha : s.servosAttached = true) :
    handleServoEnable s =
      { s with servosAttached := false, currentPosition := NONE } := by
  unfold handleServoEnable
  rw [if_neg, if_pos] <;> simp [he, ha]

theorem handleServoControlRest_offDetached (now : Nat) (s : St)
    (he : s.buf.servoEnable = false) (hd : s.servosAttached = false) :
    handleServoControlRest now s = s := by
  have h0 : handleServoEnable s = s := by
    unfold handleServoEnable
    rw [if_neg, if_neg] <;> simp [he, hd]
  simp only [handleServoControlRest, h0]
  rw [if_pos (by simp [hd])]

/-- The disable cycle over a settled enabled state: servos detach, the
applied preset clears, and the buffer and all channels are retained. -/
theorem handleServoControl_disable_static (now : Nat) (s : St)
    (ha : s.servosAttached = true) (he : s.buf.servoEnable = false)
    (hl : s.lift.isStatic = true) (ht : s.tilt.isStatic = true)
    (hg : s.gripper.isStatic = true) :
    (handleServoControl now s).lift = s.lift ∧
      (handleServoControl now s).tilt = s.tilt ∧
      (handleServoControl now s).gripper = s.gripper ∧
      (handleServoControl now s).servosAttached = false ∧
      (handleServoControl now s).currentPosition = NONE ∧
      (handleServoControl now s).buf = s.buf := by
  simp only [handleServoControl]
  rw [if_pos ⟨ha, hl, ht, hg⟩, handleServoEnable_disable s he ha]
  generalize hD :
    ({ s with servosAttached := false, currentPosition := NONE } : St) = sDis
  have heD : sDis.buf.servoEnable = false := by rw [← hD]; exact he
  have hdD : sDis.servosAttached = false := by rw [← hD]
  split
  · rw [handleServoControlRest_offDetached now
      { sDis with lastCheckedLiftPWM := sDis.buf.liftPWM,
                  lastCheckedTiltPWM := sDis.buf.tiltPWM,
                  lastCheckedGripperPWM := sDis.buf.gripperPWM,
                  lastCheckedPosition := sDis.buf.servoPosition } heD hdD]
    subst hD
    exact ⟨rfl, rfl, rfl, rfl, rfl, rfl⟩
  · subst hD
    exact ⟨rfl, rfl, rfl, rfl, rfl, rfl⟩

/-- The re-enable cycle over a detached settled state with no pending
commands: the servos re-attach and nothing else changes. -/
theorem handleServoControl_reenable_static (now : Nat) (r t : St)
    (htEq : t = { r with buf := { r.buf with servoEnable := true } })
    (hd : r.servosAttached = false) (hsp : r.buf.servoPosition = NONE)
    (hl : r.lift.isStatic = true) (ht : r.tilt.isStatic = true)
    (hg : r.gripper.isStatic = true)
    (h1 : r.buf.liftPWM = r.lift.lastPWM)
    (h2 : r.buf.tiltPWM = r.tilt.lastPWM)
    (h3 : r.buf.gripperPWM = r.gripper.lastPWM) :
    handleServoControl now t = { t with servosAttached := true } := by
  have td : t.servosAttached = false := by rw [htEq]; exact hd
  have te : t.buf.servoEnable = true := by rw [htEq]
  have tsp : t.buf.servoPosition = NONE := by rw [htEq]; exact hsp
  have tl : t.lift.isStatic = true := by rw [htEq]; exact hl
  have tt : t.tilt.isStatic = true := by rw [htEq]; exact ht
  have tg : t.gripper.isStatic = true := by rw [htEq]; exact hg
  have t1 : t.buf.liftPWM = t.lift.lastPWM := by rw [htEq]; exact h1
  have t2 : t.buf.tiltPWM = t.tilt.lastPWM := by rw [htEq]; exact h2
  have t3 : t.buf.gripperPWM = t.gripper.lastPWM := by rw [htEq]; exact h3
  have hAt : handleServoEnable t = { t with servosAttached := true } := by
    unfold handleServoEnable
    rw [if_pos (by simp [td, te])]
  have hpw := handlePWMControl_noop now { t with servosAttached := true }
    t1 t2 t3
  have hpre : handlePresetPositions now { t with servosAttached := true } =
      { t with servosAttached := true } := by
    unfold handlePresetPositions
    rw [if_neg]
    intro hcc
    exact hcc.2 tsp
  simp only [handleServoControl]
  rw [if_neg (by simp [td])]
  simp only [handleServoControlRest, hAt]
  rw [if_neg (by simp), hpw]
  simp only []
  rw [if_neg (by simp), hpre]
  exact updateFilteredServoPositions_static now _ tl tt tg

/-- Counterexample to claim C7: over the settled state `stC7` (preset 1
still buffered, lift locked at 1446 while the last physically sent lift
value is 1448), disabling and then re-enabling with no command-field
change re-applies the buffered preset on the re-enable cycle, which
resets the lift filtered position to 1448 ≠ 1446 — the round trip does
not preserve `filteredPosition`. -/
theorem C7_counterexample :
    stC7.servosAttached = true ∧ stC7.buf.servoEnable = false ∧
      (handleServoControl 1000 stC7).servosAttached = false ∧
      stC7mid.buf.servoPosition = stC7.buf.servoPosition ∧
      stC7mid.buf.liftPWM = stC7.buf.liftPWM ∧
      stC7mid.buf.tiltPWM = stC7.buf.tiltPWM ∧
      stC7mid.buf.gripperPWM = stC7.buf.gripperPWM ∧
      stC7post.servosAttached = true ∧
      stC7.lift.filtered = 1446 ∧ stC7post.lift.filtered = 1448 ∧
      stC7post.lift.filtered ≠ stC7.lift.filtered := by
  decide

/-- Claim C7 as amended: the disable/enable round trip preserves every
channel's target and filtered position provided the channels are settled
and no stale commands remain buffered — the buffered preset code is
`NONE` and the buffered raw targets equal the last accepted values.  (If
a non-`NONE` preset code is still buffered at re-enable time it is
re-applied, resetting filtered positions to the last sent values, as the
counterexample shows.) -/
theorem C7_roundtrip_amended (now1 now2 : Nat) (s s1 s2 : St)
    (hs1 : s1 = handleServoControl now1 s)
    (hs2 : s2 = handleServoControl now2
      { s1 with buf := { s1.buf with servoEnable := true } })
    (ha : s.servosAttached = true) (he : s.buf.servoEnable = false)
    (hsp : s.buf.servoPosition = NONE)
    (hl : s.lift.isStatic = true) (ht : s.tilt.isStatic = true)
    (hg : s.gripper.isStatic = true)
    (h1 : s.buf.liftPWM = s.lift.lastPWM)
    (h2 : s.buf.tiltPWM = s.tilt.lastPWM)
    (h3 : s.buf.gripperPWM = s.gripper.lastPWM) :
    s2.lift.target = s.lift.target ∧
      s2.lift.filtered = s.lift.filtered ∧
      s2.tilt.target = s.tilt.target ∧
      s2.tilt.filtered = s.tilt.filtered ∧
      s2.gripper.target = s.gripper.target ∧
      s2.gripper.filtered = s.gripper.filtered := by
  obtain ⟨e1, e2, e3, e4, e5, e6⟩ :=
    handleServoControl_disable_static now1 s ha he hl ht hg
  rw [← hs1] at e1 e2 e3 e4 e5 e6
  have hre := handleServoControl_reenable_static now2 s1
    { s1 with buf := { s1.buf with servoEnable := true } } rfl e4
    (by rw [e6]; exact hsp)
    (by rw [e1]; exact hl) (by rw [e2]; exact ht) (by rw [e3]; exact hg)
    (by rw [e6, e1]; exact h1) (by rw [e6, e2]; exact h2)
    (by rw [e6, e3]; exact h3)
  rw [hre] at hs2
  have f1 : s2.lift = s.lift := by rw [hs2]; exact e1
  have f2 : s2.tilt = s.tilt := by rw [hs2]; exact e2
  have f3 : s2.gripper = s.gripper := by rw [hs2]; exact e3
  exact ⟨by rw [f1], by rw [f1], by rw [f2], by rw [f2], by rw [f3],
    by rw [f3]⟩

/-- Witness for the amended C7 on the settled state `stW7`. -/
theorem C7_witness :
    (handleServoControl 30
          { handleServoControl 10 stW7 with
            buf := { (handleServoControl 10 stW7).buf with
                     servoEnable := true } }).lift.target =
        stW7.lift.target ∧
      (handleServoControl 30
          { handleServoControl 10 stW7 with
            buf := { (handleServoControl 10 stW7).buf with
                     servoEnable := true } }).lift.filtered =
        stW7.lift.filtered ∧
      (handleServoControl 30
          { handleServoControl 10 stW7 with
            buf := { (handleServoControl 10 stW7).buf with
                     servoEnable := true } }).tilt.target =
        stW7.tilt.target ∧
      (handleServoControl 30
          { handleServoControl 10 stW7 with
            buf := { (handleServoControl 10 stW7).buf with
                     servoEnable := true } }).tilt.filtered =
        stW7.tilt.filtered ∧
      (handleServoControl 30
          { handleServoControl 10 stW7 with
            buf := { (handleServoControl 10 stW7).buf with
                     servoEnable := true } }).gripper.target =
        stW7.gripper.target ∧
      (handleServoControl 30
          { handleServoControl 10 stW7 with
            buf := { (handleServoControl 10 stW7).buf with
                     servoEnable := true } }).gripper.filtered =
        stW7.gripper.filtered :=
  C7_roundtrip_amended 10 30 stW7 (handleServoControl 10 stW7) _ rfl rfl
    (by decide) (by decide) (by decide) (by decide) (by decide) (by decide)
    (by decide) (by decide) (by decide)

end Robff

namespace Robff

/-- One integer EMA step moves the filtered value closer to the target:
the distance decreases by at least one while above 2, and never grows
beyond 2. -/
theorem ema_dist_le (f T : Nat) :
    Nat.dist (((PWM_FILTER_ALPHA - 1) * f + T) / PWM_FILTER_ALPHA) T ≤
      max (Nat.dist f T - 1) 2 := by
  simp only [PWM_FILTER_ALPHA, Nat.dist]
  omega

theorem filterIter_done (τ : Nat → Nat) (n T : Nat) (c : Chan)
    (h : DoneAt T c) : filterIter τ n c = c := by
  induction n generalizing τ with
  | zero => rfl
  | succ n ih =>
    simp only [filterIter]
    rw [filterChan_static _ _ h.1]
    exact ih _

theorem filterChan_step (now : Nat) (c : Chan) (h : c.isStatic = false)
    (hlc : c.lastChange ≤ now) :
    DoneAt c.target (filterChan now c).1 ∨
      ((filterChan now c).1.isStatic = false ∧
        (filterChan now c).1.target = c.target ∧
        (filterChan now c).1.lastChange ≤ now ∧
        Nat.dist (filterChan now c).1.filtered c.target ≤
          max (Nat.dist c.filtered c.target - 1) 2) := by
  have hd := ema_dist_le c.filtered c.target
  simp only [filterChan]
  rw [if_neg (by simp [h])]
  split
  next hz =>
    split
    next hto =>
      split
      · left; exact ⟨rfl, rfl, rfl⟩
      · left; exact ⟨rfl, rfl, rfl⟩
    next hto =>
      split
      · right; exact ⟨h, rfl, hlc, hd⟩
      · right; exact ⟨h, rfl, hlc, hd⟩
  next hz =>
    split
    · right; exact ⟨h, rfl, Nat.le_refl now, hd⟩
    · right; exact ⟨h, rfl, Nat.le_refl now, hd⟩

end Robff

namespace Robff

theorem filterChan_zone_aux (c : Chan) (T : Nat) (htg : c.target = T)
    (hz3 : Nat.dist c.filtered T ≤ 3) :
    Nat.dist (((PWM_FILTER_ALPHA - 1) * c.filtered + c.target) /
        PWM_FILTER_ALPHA) c.target ≤ STATIC_THRESHOLD := by
  have hd := ema_dist_le c.filtered c.target
  rw [htg] at hd ⊢
  simp only [STATIC_THRESHOLD]
  omega

theorem filterChan_lock (now : Nat) (c : Chan)
    (h : c.isStatic = false)
    (hz3 : Nat.dist c.filtered c.target ≤ 3)
    (hto : STATIC_TIMEOUT < now - c.lastChange) :
    DoneAt c.target (filterChan now c).1 := by
  have hz := filterChan_zone_aux c c.target rfl hz3
  simp only [filterChan]
  rw [if_neg (by simp [h]), if_pos hz, if_pos hto]
  split
  · exact ⟨rfl, rfl, rfl⟩
  · exact ⟨rfl, rfl, rfl⟩

theorem filterChan_zone_keep (now : Nat) (c : Chan)
    (h : c.isStatic = false)
    (hz3 : Nat.dist c.filtered c.target ≤ 3)
    (hto : ¬STATIC_TIMEOUT < now - c.lastChange) :
    (filterChan now c).1.isStatic = false ∧
      (filterChan now c).1.target = c.target ∧
      (filterChan now c).1.lastChange = c.lastChange ∧
      Nat.dist (filterChan now c).1.filtered c.target ≤ 3 := by
  have hz := filterChan_zone_aux c c.target rfl hz3
  simp only [filterChan]
  rw [if_neg (by simp [h]), if_pos hz, if_neg hto]
  split
  · exact ⟨h, rfl, rfl, hz⟩
  · exact ⟨h, rfl, rfl, hz⟩

theorem strictMono_le_add (τ : Nat → Nat)
    (hmono : ∀ i, τ i < τ (i + 1)) (i k : Nat) : τ i + k ≤ τ (i + k) := by
  induction k with
  | zero => simp
  | succ k ih =>
    have heq : i + (k + 1) = (i + k) + 1 := by omega
    rw [heq]
    have := hmono (i + k)
    omega

theorem filterIter_add (a b : Nat) (τ : Nat → Nat) (c : Chan) :
    filterIter τ (a + b) c =
      filterIter (fun i => τ (a + i)) b (filterIter τ a c) := by
  induction a generalizing τ c with
  | zero => simp only [Nat.zero_add, filterIter]
  | succ a ih =>
    rw [Nat.succ_add, filterIter, filterIter,
      ih (fun i => τ (i + 1)) (filterChan (τ 0) c).1]
    have hfun2 : (fun i => τ (a + 1 + i)) = (fun i => τ (a + i + 1)) :=
      funext fun i => congrArg τ (by omega)
    rw [hfun2]

theorem filterIter_descent (n : Nat) (τ : Nat → Nat) (c : Chan) (T : Nat)
    (hmono : ∀ i, τ i ≤ τ (i + 1)) (h : c.isStatic = false)
    (htg : c.target = T) (hlc : c.lastChange ≤ τ 0)
    (hdist : Nat.dist c.filtered T ≤ n + 3) :
    DoneAt T (filterIter τ n c) ∨
      ((filterIter τ n c).isStatic = false ∧
        (filterIter τ n c).target = T ∧
        (filterIter τ n c).lastChange ≤ τ n ∧
        Nat.dist (filterIter τ n c).filtered T ≤ 3) := by
  induction n generalizing τ c with
  | zero => right; exact ⟨h, htg, hlc, hdist⟩
  | succ n ih =>
    rcases filterChan_step (τ 0) c h hlc with hdone | ⟨h1, h2, h3, h4⟩
    · left
      rw [htg] at hdone
      simp only [filterIter]
      rw [filterIter_done _ _ _ _ hdone]
      exact hdone
    · simp only [filterIter]
      rw [htg] at h4
      exact ih (fun i => τ (i + 1)) (filterChan (τ 0) c).1
        (fun i => hmono (i + 1)) h1 (h2.trans htg)
        (h3.trans (hmono 0)) (by omega)

theorem filterIter_zone (m : Nat) (τ : Nat → Nat) (c : Chan) (T : Nat)
    (hmono : ∀ i, τ i < τ (i + 1)) (h : c.isStatic = false)
    (htg : c.target = T) (hz3 : Nat.dist c.filtered T ≤ 3)
    (hlc : c.lastChange ≤ τ 0)
    (hpast : c.lastChange + STATIC_TIMEOUT < τ m) :
    DoneAt T (filterIter τ (m + 1) c) := by
  induction m generalizing τ c with
  | zero =>
    have hz3t : Nat.dist c.filtered c.target ≤ 3 := by rw [htg]; exact hz3
    have hto : STATIC_TIMEOUT < τ 0 - c.lastChange := by
      simp only [STATIC_TIMEOUT] at hpast ⊢
      omega
    have hdone := filterChan_lock (τ 0) c h hz3t hto
    rw [htg] at hdone
    simp only [filterIter]
    exact hdone
  | succ m ih =>
    have hz3t : Nat.dist c.filtered c.target ≤ 3 := by rw [htg]; exact hz3
    by_cases hto : STATIC_TIMEOUT < τ 0 - c.lastChange
    · have hdone := filterChan_lock (τ 0) c h hz3t hto
      rw [htg] at hdone
      rw [filterIter, filterIter_done _ _ _ _ hdone]
      exact hdone
    · obtain ⟨h1, h2, h3, h4⟩ := filterChan_zone_keep (τ 0) c h hz3t hto
      rw [htg] at h2 h4
      rw [filterIter]
      exact ih (fun i => τ (i + 1)) (filterChan (τ 0) c).1
        (fun i => hmono (i + 1)) h1 h2 h4
        (h3.le.trans (hlc.trans (Nat.le_of_lt (hmono 0))))
        (by rw [h3]; exact hpast)

end Robff

namespace Robff

/-- Claim C2: an accepted raw target is eventually reached exactly.  For
any strictly increasing schedule of eligible filter-cycle times starting
no earlier than the acceptance time, after sufficiently many cycles the
channel's filtered value equals the accepted command exactly and the
channel is locked static. -/
theorem C2_accepted_target_converges (lo hi cmd t0 : Nat) (c : Chan)
    (τ : Nat → Nat) (hmono : ∀ i, τ i < τ (i + 1)) (ht0 : t0 ≤ τ 0)
    (hacc : (acceptPWM lo hi cmd t0 c).2 = true) :
    ∃ N, ∀ n, N ≤ n →
      (filterIter τ n (acceptPWM lo hi cmd t0 c).1).filtered = cmd ∧
        (filterIter τ n (acceptPWM lo hi cmd t0 c).1).isStatic = true := by
  set c0 := (acceptPWM lo hi cmd t0 c).1 with hc0
  rw [acceptPWM_accepted lo hi cmd t0 c hacc] at hc0
  have h0s : c0.isStatic = false := by rw [hc0]
  have h0t : c0.target = cmd := by rw [hc0]
  have h0l : c0.lastChange = t0 := by rw [hc0]
  set d0 := Nat.dist c0.filtered cmd with hd0
  have hdoneN : DoneAt cmd (filterIter τ (d0 + 302) c0) := by
    rcases filterIter_descent d0 τ c0 cmd (fun i => Nat.le_of_lt (hmono i))
        h0s h0t (h0l ▸ ht0) (by omega) with hdone | ⟨h1, h2, h3, h4⟩
    · rw [filterIter_add d0 302 τ c0, filterIter_done _ _ _ _ hdone]
      exact hdone
    · rw [filterIter_add d0 302 τ c0]
      have hmono2 : ∀ i, τ (d0 + i) < τ (d0 + (i + 1)) := fun i => by
        have heq : d0 + (i + 1) = (d0 + i) + 1 := by omega
        rw [heq]
        exact hmono (d0 + i)
      have hadd := strictMono_le_add τ hmono d0 301
      exact filterIter_zone 301 (fun i => τ (d0 + i)) (filterIter τ d0 c0)
        cmd hmono2 h1 h2 h4 h3
        (by simp only [STATIC_TIMEOUT] at *; omega)
  refine ⟨d0 + 302, fun n hn => ?_⟩
  have hsplit : n = (d0 + 302) + (n - (d0 + 302)) := by omega
  rw [hsplit, filterIter_add, filterIter_done _ _ _ _ hdoneN]
  exact ⟨hdoneN.2.1, hdoneN.1⟩

/-- Witness for C2: the lift channel at the midpoint accepts the raw
command 1630 at time 0 under the schedule of one filter cycle per
millisecond. -/
theorem C2_witness :
    (acceptPWM LIFT_MIN LIFT_MAX 1630 0 chanW2).2 = true ∧
      ∃ N, ∀ n, N ≤ n →
        (filterIter (fun i => i) n
            (acceptPWM LIFT_MIN LIFT_MAX 1630 0 chanW2).1).filtered =
            1630 ∧
          (filterIter (fun i => i) n
              (acceptPWM LIFT_MIN LIFT_MAX 1630 0 chanW2).1).isStatic =
            true :=
  ⟨by decide,
    C2_accepted_target_converges LIFT_MIN LIFT_MAX 1630 0 chanW2
      (fun i => i) (fun i => Nat.lt_succ_self i) (Nat.le_refl 0)
      (by decide)⟩

end Robff
